import Mathlib

/-
Verification development for the team-membership and user resource controllers
of a terraform provider for a LLM gateway (src/provider/resource_team_membership.go
and the user resource file).

Modelling conventions:
- Go float64 fields are modelled as rationals; the only float operations the code
  performs are comparison with 0 and JSON rendering, which are exact for the
  values involved.
- A Go panic (failed unchecked type assertion, nil-pointer dereference) is
  modelled by the value `none` of an `Option` result.
- The HTTP environment (request-construction failure, transport failure, or a
  response with a status code and a decoded JSON body) is an explicit input to
  each operation, mirroring what http.DefaultClient.Do would produce.
- Diagnostics (the diag.Diagnostics return value) are modelled as a list; the
  source builds diagnostics with diag.Errorf / diag.FromErr but never appends
  them to the returned list, and the embedding reproduces exactly that.
-/

namespace LitellmProvider

/-- A dynamically typed Go value as handed over by the declared-state accessor
(schema.ResourceData.Get). `nil` is the zero interface value returned for a key
that is not declared in the schema. -/
inductive GoValue where
  | str (s : String)
  | float (q : ℚ)
  | nil
deriving DecidableEq, Repr

/-- The Go type assertion `.(string)`: succeeds exactly on string values;
`none` models the panic of a failed unchecked assertion. -/
def GoValue.asString : GoValue → Option String
  | GoValue.str s => some s
  | _ => none

/-- The Go type assertion `.(float64)`: succeeds exactly on float values;
`none` models the panic of a failed unchecked assertion. -/
def GoValue.asFloat : GoValue → Option ℚ
  | GoValue.float q => some q
  | _ => none

/-- Declared resource state (schema.ResourceData): a key-value view supplied by
the hosting layer. -/
structure ResourceData where
  fields : List (String × GoValue)
deriving DecidableEq, Repr

/-- d.Get: the value stored for the key, or the nil interface value when the
key is absent. -/
def ResourceData.get (d : ResourceData) (k : String) : GoValue :=
  match d.fields.lookup k with
  | some v => v
  | none => GoValue.nil

/-- d.Set: store a value for a key, replacing an existing binding. -/
def ResourceData.set (d : ResourceData) (k : String) (v : GoValue) : ResourceData :=
  ResourceData.mk (setField d.fields k v)
where
  setField : List (String × GoValue) → String → GoValue → List (String × GoValue)
    | [], k, v => [(k, v)]
    | (k0, v0) :: rest, k, v =>
      if k0 = k then (k, v) :: rest else (k0, v0) :: setField rest k v

/-- The provider client handle (LitellmClient): carries the configured base URL. -/
structure LitellmClient where
  ApiBaseURL : String
deriving DecidableEq, Repr

/-- The keys declared in SchemaTeamMembership. The max_budget_in_team block is
commented out in the source as of 2024-11-15, so only these three keys exist. -/
def SchemaTeamMembershipKeys : List String := ["team_id", "user_id", "role"]

/-- Embeds the struct TeamMembershipData of resource_team_membership.go. -/
structure TeamMembershipData where
  UserId : String
  Role : String
  TeamId : String
  MaxBudgetInTeam : ℚ
deriving DecidableEq, Repr

/-- Embeds getTeamMembershipData: reads user_id, role, team_id and
max_budget_in_team from the declared state with unchecked type assertions
(`.(string)` three times, `.(float64)` once). Any failed assertion panics,
modelled by `none`. -/
def getTeamMembershipData (d : ResourceData) : Option TeamMembershipData :=
  match (d.get "user_id").asString, (d.get "role").asString,
        (d.get "team_id").asString, (d.get "max_budget_in_team").asFloat with
  | some userId, some role, some teamId, some maxBudgetInTeam =>
      some (TeamMembershipData.mk userId role teamId maxBudgetInTeam)
  | _, _, _, _ => none

/-- A JSON value, as produced by encoding/json. Objects keep their fields in
the order json.Marshal emits them (for Go maps: keys in sorted order). -/
inductive Json where
  | null
  | str (s : String)
  | num (q : ℚ)
  | obj (fields : List (String × Json))
  | arr (elems : List Json)

/-- The field list of a JSON object (empty for any other value). -/
def Json.objFields : Json → List (String × Json)
  | Json.obj fields => fields
  | _ => []

/-- encoding/json string escaping (including the default HTML escaping of
angle brackets and ampersand). -/
def escapeChar (c : Char) : String :=
  if c = '"' then "\\\""
  else if c = '\\' then "\\\\"
  else if c = '<' then "\\u003c"
  else if c = '>' then "\\u003e"
  else if c = '&' then "\\u0026"
  else if c = '\n' then "\\n"
  else if c = '\t' then "\\t"
  else if c = '\r' then "\\r"
  else String.singleton c

/-- Escape a whole string for JSON output. -/
def escapeString (s : String) : String :=
  String.join (s.data.map escapeChar)

/-- Decimal digits of a fractional part in [0, 1), with fuel (terminating
decimals such as 12.5 are rendered exactly, matching the Go formatter on the
float values this provider handles). -/
def fracDigits : Nat → ℚ → String
  | 0, _ => ""
  | Nat.succ n, q =>
    if q = 0 then ""
    else
      let q10 := q * 10
      let d := Rat.floor q10
      toString d ++ fracDigits n (q10 - d)

/-- Render a JSON number the way encoding/json renders a float64: no trailing
point for integral values, shortest terminating decimal otherwise. -/
def renderNum (q : ℚ) : String :=
  let sign := if q < 0 then "-" else ""
  let a := |q|
  let ip := Rat.floor a
  let fp := a - ip
  sign ++ toString ip ++ (if fp = 0 then "" else "." ++ fracDigits 30 fp)

mutual

/-- json.Marshal: serialize a JSON value to its byte representation. -/
def marshal : Json → String
  | Json.null => "null"
  | Json.str s => "\"" ++ escapeString s ++ "\""
  | Json.num q => renderNum q
  | Json.obj fields => "\x7b" ++ marshalFields fields ++ "\x7d"
  | Json.arr elems => "[" ++ marshalElems elems ++ "]"

/-- Serialize the comma-separated field list of a JSON object. -/
def marshalFields : List (String × Json) → String
  | [] => ""
  | [(k, v)] => "\"" ++ escapeString k ++ "\":" ++ marshal v
  | (k, v) :: rest =>
      "\"" ++ escapeString k ++ "\":" ++ marshal v ++ "," ++ marshalFields rest

/-- Serialize the comma-separated element list of a JSON array. -/
def marshalElems : List Json → String
  | [] => ""
  | [v] => marshal v
  | v :: rest => marshal v ++ "," ++ marshalElems rest

end

/-! ## Role validation

The litellm helper package (ROLE_LIST, ValidateRole, the two reserved
constants) is part of this repository but not among the provided sources;
only its caller, the role ValidateFunc of SchemaTeamMembership, is. The
helpers are therefore modelled from the spec. -/

/-- Modelled from the spec: litellm.ROLE_LIST, the closed RoleName enumeration
(admin-, member- and viewer-class roles together with the two values reserved
for proxy-level administration). The litellm package itself is not among the
provided sources. -/
def ROLE_LIST : List String :=
  ["proxy_admin", "proxy_admin_viewer", "admin", "member", "viewer"]

/-- Modelled from the spec: the reserved proxy administration role constant. -/
def PROXY_ADMIN : String := "proxy_admin"

/-- Modelled from the spec: the reserved proxy administration viewer role
constant. -/
def PROXY_ADMIN_VIEWER : String := "proxy_admin_viewer"

/-- Modelled from the spec: litellm.ValidateRole returns the candidate role
together with whether it belongs to the closed RoleName set. -/
def ValidateRole (value : String) : String × Bool :=
  (value, decide (value ∈ ROLE_LIST))

/-- A validation error produced by the role ValidateFunc, with the data the
corresponding fmt.Errorf call embeds in its message. -/
inductive ValidationError where
  /-- fmt.Errorf with the full permitted list: the message enumerates
  litellm.ROLE_LIST. -/
  | notInRoleList (permitted : List String)
  /-- The distinct message that proxy_admin and proxy_admin_viewer cannot be
  used to associate a team with a user (team-scope exclusion). -/
  | reservedProxyAdmin
deriving DecidableEq, Repr

/-- Embeds the ValidateFunc of SchemaTeamMembership for the role key: first
check membership in ROLE_LIST (appending the list-enumerating error on
failure), then independently check for the two reserved proxy-admin roles
(appending the distinct team-scope exclusion error). Returns (warns, errs). -/
def roleValidateFunc (val : String) : List String × List ValidationError :=
  let rb := ValidateRole val
  let errs0 : List ValidationError :=
    if rb.2 = false then [ValidationError.notInRoleList ROLE_LIST] else []
  let errs1 : List ValidationError :=
    if rb.1 = PROXY_ADMIN ∨ rb.1 = PROXY_ADMIN_VIEWER then
      errs0 ++ [ValidationError.reservedProxyAdmin]
    else errs0
  ([], errs1)

/-! ## HTTP environment and diagnostics -/

/-- One diagnostic entry (diag.Diagnostics element). -/
inductive Diag where
  | error (summary : String)
deriving DecidableEq, Repr

/-- What the HTTP layer produced for the single round trip of one operation:
client.NewRequest may fail (the request is nil), http.DefaultClient.Do may
fail (the response is nil), or a response arrives with a status code and a
decoded JSON body. -/
inductive HttpResult where
  | reqError (msg : String)
  | transportError (msg : String)
  | resp (statusCode : Nat) (body : Json)

/-! ## Team membership payloads (the Go map literals, marshalled by
json.Marshal with keys in sorted order) -/

/-- Embeds the Create payload map
`member: (role, user_id), team_id, optionally max_budget_in_team when > 0`;
json.Marshal emits Go map keys sorted, hence the field order
max_budget_in_team, member, team_id. -/
def createPayload (t : TeamMembershipData) : Json :=
  Json.obj
    ((if t.MaxBudgetInTeam > 0 then
        [("max_budget_in_team", Json.num t.MaxBudgetInTeam)]
      else []) ++
     [("member", Json.obj [("role", Json.str t.Role), ("user_id", Json.str t.UserId)]),
      ("team_id", Json.str t.TeamId)])

/-- Embeds the Update payload map
`user_id, role, team_id, optionally max_budget_in_team when > 0`;
sorted key order: max_budget_in_team, role, team_id, user_id. -/
def updatePayload (t : TeamMembershipData) : Json :=
  Json.obj
    ((if t.MaxBudgetInTeam > 0 then
        [("max_budget_in_team", Json.num t.MaxBudgetInTeam)]
      else []) ++
     [("role", Json.str t.Role), ("team_id", Json.str t.TeamId),
      ("user_id", Json.str t.UserId)])

/-- Embeds the Delete payload map `user_id, team_id`; sorted key order:
team_id, user_id. -/
def deletePayload (t : TeamMembershipData) : Json :=
  Json.obj [("team_id", Json.str t.TeamId), ("user_id", Json.str t.UserId)]

/-- The exact bytes the Update operation posts for a given declared state
(none when field extraction panics). -/
def updateRequestBody (d : ResourceData) : Option String :=
  (getTeamMembershipData d).map (fun t => marshal (updatePayload t))

/-! ## Read-side response structures -/

/-- Modelled from the spec: litellm.MemberWithRole, one entry of the
members_with_roles array with json tags user_id, role, user_email. The
litellm package is not among the provided sources. -/
structure MemberWithRole where
  UserId : String
  Role : String
  UserEmail : String
deriving DecidableEq, Repr

/-- The string stored under a key of a JSON object field list, defaulting to
the empty string when absent or not a string (the zero value an unmarshal
leaves behind). -/
def strField (fields : List (String × Json)) (k : String) : String :=
  match fields.lookup k with
  | some (Json.str s) => s
  | _ => ""

/-- Modelled from the spec: the entries a pointer-target unmarshal of the
members_with_roles array would produce, used to phrase claims about the
response content. Entries that are not objects decode to zero values. -/
def membersOf (body : Json) : List MemberWithRole :=
  match (body.objFields).lookup "members_with_roles" with
  | some (Json.arr elems) =>
      elems.map (fun j =>
        MemberWithRole.mk (strField j.objFields "user_id")
          (strField j.objFields "role") (strField j.objFields "user_email"))
  | _ => []

/-! ## The four team membership operations -/

/-- Embeds resourceTeamMembershipCreate. `none` models a panic: either the
failed type assertion inside getTeamMembershipData, or the nil-pointer
dereference of resp (resp.StatusCode and the deferred resp.Body.Close) that
follows a NewRequest or Do error, since the diag.FromErr results are discarded
and execution continues. On a response, a non-200 status code evaluates
diag.Errorf but discards the result, so the returned diagnostics are always
the untouched empty diags. -/
def resourceTeamMembershipCreate (client : LitellmClient) (d : ResourceData)
    (result : HttpResult) : Option (List Diag) :=
  match getTeamMembershipData d with
  | none => none
  | some teamMembershipData =>
    let diags : List Diag := []
    let _apiUrl := client.ApiBaseURL ++ "/team/member_add"
    let _body := marshal (createPayload teamMembershipData)
    match result with
    | HttpResult.reqError _ => none
    | HttpResult.transportError _ => none
    | HttpResult.resp statusCode _ =>
      let _discardedErrorf :=
        if statusCode ≠ 200 then
          [Diag.error ("API request to create team membership has failed with status code "
            ++ toString statusCode)]
        else []
      some diags

/-- Embeds resourceTeamMembershipRead. `none` models a panic as in Create.
On a response: the body is decoded into respJsonBody, the members_with_roles
entry is re-marshalled, and json.Unmarshal is called with the nil slice
membersWithRoles passed by value (not by address), so Unmarshal reports an
InvalidUnmarshalError without writing anything; that error is discarded (the
diag.FromErr value is never appended) and the loop runs over the still-nil
slice. The write-back branch (d.Set of role and user_email, then return nil)
is embedded as in the source even though the nil slice makes it unreachable. -/
def resourceTeamMembershipRead (client : LitellmClient) (d : ResourceData)
    (result : HttpResult) : Option (ResourceData × List Diag) :=
  match getTeamMembershipData d with
  | none => none
  | some teamMembershipData =>
    let diags : List Diag := []
    let _apiUrl := client.ApiBaseURL ++ "/team/info?team_id=" ++ teamMembershipData.TeamId
    match result with
    | HttpResult.reqError _ => none
    | HttpResult.transportError _ => none
    | HttpResult.resp _ body =>
      let respJsonBody := body.objFields
      let _jsonTeamMembership :=
        marshal ((respJsonBody.lookup "members_with_roles").getD Json.null)
      let membersWithRoles : List MemberWithRole := []
      match membersWithRoles.find?
          (fun teamMembership => teamMembership.UserId == teamMembershipData.UserId) with
      | some teamMembership =>
          some ((ResourceData.set (ResourceData.set d "role"
                  (GoValue.str teamMembership.Role))
                "user_email" (GoValue.str teamMembership.UserEmail), []))
      | none => some (d, diags)

/-- Embeds resourceTeamMembershipUpdate; same structure and discarded
diagnostics as Create, posting the update payload to /team/member_update. -/
def resourceTeamMembershipUpdate (client : LitellmClient) (d : ResourceData)
    (result : HttpResult) : Option (List Diag) :=
  match getTeamMembershipData d with
  | none => none
  | some teamMembershipData =>
    let diags : List Diag := []
    let _apiUrl := client.ApiBaseURL ++ "/team/member_update"
    let _body := marshal (updatePayload teamMembershipData)
    match result with
    | HttpResult.reqError _ => none
    | HttpResult.transportError _ => none
    | HttpResult.resp statusCode _ =>
      let _discardedErrorf :=
        if statusCode ≠ 200 then
          [Diag.error ("API request to create team membership has failed with status code "
            ++ toString statusCode)]
        else []
      some diags

/-- Embeds resourceTeamMembershipDelete; same structure and discarded
diagnostics as Create, posting the delete payload to /team/member_delete. -/
def resourceTeamMembershipDelete (client : LitellmClient) (d : ResourceData)
    (result : HttpResult) : Option (List Diag) :=
  match getTeamMembershipData d with
  | none => none
  | some teamMembershipData =>
    let diags : List Diag := []
    let _apiUrl := client.ApiBaseURL ++ "/team/member_delete"
    let _body := marshal (deletePayload teamMembershipData)
    match result with
    | HttpResult.reqError _ => none
    | HttpResult.transportError _ => none
    | HttpResult.resp statusCode _ =>
      let _discardedErrorf :=
        if statusCode ≠ 200 then
          [Diag.error ("API request to create team membership has failed with status code "
            ++ toString statusCode)]
        else []
      some diags

/-! ## The user resource stub operations -/

/-- Embeds resourceUserCreate: asserts the client handle and returns the
untouched empty diagnostics; no request is built, no state is written. -/
def resourceUserCreate (client : LitellmClient) (d : ResourceData) :
    ResourceData × List Diag :=
  let diags : List Diag := []
  let _client := client
  (d, diags)

/-- Embeds resourceUserRead: asserts the client handle and returns the
untouched empty diagnostics; no request is built, no state is written. -/
def resourceUserRead (client : LitellmClient) (d : ResourceData) :
    ResourceData × List Diag :=
  let diags : List Diag := []
  let _client := client
  (d, diags)

/-- Embeds resourceUserUpdate: asserts the client handle and returns the
untouched empty diagnostics; no request is built, no state is written. -/
def resourceUserUpdate (client : LitellmClient) (d : ResourceData) :
    ResourceData × List Diag :=
  let diags : List Diag := []
  let _client := client
  (d, diags)

/-- Embeds resourceUserDelete: asserts the client handle and returns the
untouched empty diagnostics; no request is built, no state is written. -/
def resourceUserDelete (client : LitellmClient) (d : ResourceData) :
    ResourceData × List Diag :=
  let diags : List Diag := []
  let _client := client
  (d, diags)

/-! ## Concrete data used by witnesses and counterexamples -/

/-- A concrete client handle. -/
def sampleClient : LitellmClient := LitellmClient.mk "http://localhost:4000"

/-- A well-typed declared state for user u2 (the accessor returns a float for
max_budget_in_team, isolating the HTTP handling from the schema gap of
claim C10). -/
def sampleState : ResourceData :=
  ResourceData.mk
    [("team_id", GoValue.str "t1"), ("user_id", GoValue.str "u2"),
     ("role", GoValue.str "member"), ("max_budget_in_team", GoValue.float 0)]

/-- The same declared state for the absent user u3. -/
def sampleStateU3 : ResourceData :=
  ResourceData.mk
    [("team_id", GoValue.str "t1"), ("user_id", GoValue.str "u3"),
     ("role", GoValue.str "member"), ("max_budget_in_team", GoValue.float 0)]

/-- A declared state whose accessor returns the nil interface value for
max_budget_in_team, as the real schema (without that key) would. -/
def stateMissingBudget : ResourceData :=
  ResourceData.mk
    [("team_id", GoValue.str "t1"), ("user_id", GoValue.str "u2"),
     ("role", GoValue.str "member")]

/-- The members_with_roles response body of the spec example: u1 is a member
with an email, u2 is an admin without one. -/
def specExampleBody : Json :=
  Json.obj
    [("members_with_roles", Json.arr
      [Json.obj [("user_id", Json.str "u1"), ("role", Json.str "member"),
                 ("user_email", Json.str "a@x.com")],
       Json.obj [("user_id", Json.str "u2"), ("role", Json.str "admin")]])]

/-! ## Helper lemmas -/

/-- When the accessor does not hold a float under max_budget_in_team, the
field extraction panics. -/
theorem getTeamMembershipData_eq_none_of_budget_none (d : ResourceData)
    (h : (d.get "max_budget_in_team").asFloat = none) :
    getTeamMembershipData d = none := by
  unfold getTeamMembershipData
  rw [h]
  cases (d.get "user_id").asString <;> cases (d.get "role").asString <;>
    cases (d.get "team_id").asString <;> rfl

/-! ## Claims -/

/-- Claim C1: the claim says a non-200 status yields a terminal diagnostic
carrying the status code. The code evaluates diag.Errorf on a non-200 status
but discards its result and returns the untouched empty diags, so Create,
Update and Delete return no diagnostics at a mocked 403 exactly as at a
mocked 200. This theorem evaluates the code at the failing input. -/
theorem c1_non200_status_returns_no_diagnostics :
    resourceTeamMembershipCreate sampleClient sampleState (HttpResult.resp 200 Json.null)
      = some [] ∧
    resourceTeamMembershipCreate sampleClient sampleState (HttpResult.resp 403 Json.null)
      = some [] ∧
    resourceTeamMembershipUpdate sampleClient sampleState (HttpResult.resp 403 Json.null)
      = some [] ∧
    resourceTeamMembershipDelete sampleClient sampleState (HttpResult.resp 403 Json.null)
      = some [] :=
  ⟨rfl, rfl, rfl, rfl⟩

/-- Claim C2: the claim says Read writes back role and user_email of the first
matching members_with_roles entry. The code passes the nil slice to
json.Unmarshal by value instead of by address, so the decode fails, the
discarded error is never reported, and the scan runs over the nil slice: at
the exact response of the claim with declared UserId u2 the declared state is
returned unchanged (role stays member), even though the response does contain
the matching entry with role admin that the claim expects to be written
back. -/
theorem c2_read_never_writes_back :
    resourceTeamMembershipRead sampleClient sampleState (HttpResult.resp 200 specExampleBody)
      = some (sampleState, []) ∧
    (membersOf specExampleBody).find? (fun m => m.UserId == "u2")
      = some (MemberWithRole.mk "u2" "admin" "") ∧
    sampleState.get "role" = GoValue.str "member" :=
  ⟨rfl, rfl, rfl⟩

/-- Claim C3: when no entry of the members_with_roles array carries the
declared UserId, the Read operation returns the declared state unchanged and
no diagnostics. -/
theorem c3_read_no_match_leaves_state_unchanged (client : LitellmClient)
    (d : ResourceData) (status : Nat) (body : Json) (data : TeamMembershipData)
    (hd : getTeamMembershipData d = some data)
    (hmiss : ∀ m ∈ membersOf body, m.UserId ≠ data.UserId) :
    resourceTeamMembershipRead client d (HttpResult.resp status body)
      = some (d, []) := by
  unfold resourceTeamMembershipRead
  rw [hd]
  rfl

/-- Witness for claim C3: declared UserId u3 is absent from the spec example
response, and Read leaves the declared state unchanged with no diagnostics. -/
theorem c3_read_no_match_witness :
    resourceTeamMembershipRead sampleClient sampleStateU3 (HttpResult.resp 200 specExampleBody)
      = some (sampleStateU3, []) :=
  c3_read_no_match_leaves_state_unchanged sampleClient sampleStateU3 200 specExampleBody
    (TeamMembershipData.mk "u3" "member" "t1" 0) rfl (by decide)

/-- Claim C4: a declared MaxBudgetInTeam of 0 omits max_budget_in_team from
the Create and Update payloads, and a strictly positive MaxBudgetInTeam puts
the key with exactly that value into both payloads. -/
theorem c4_budget_field_presence (t : TeamMembershipData) :
    (t.MaxBudgetInTeam = 0 →
      ((createPayload t).objFields).lookup "max_budget_in_team" = none ∧
      ((updatePayload t).objFields).lookup "max_budget_in_team" = none) ∧
    (t.MaxBudgetInTeam > 0 →
      ((createPayload t).objFields).lookup "max_budget_in_team"
        = some (Json.num t.MaxBudgetInTeam) ∧
      ((updatePayload t).objFields).lookup "max_budget_in_team"
        = some (Json.num t.MaxBudgetInTeam)) := by
  constructor
  · intro h
    have hneg : ¬ (t.MaxBudgetInTeam > 0) := by rw [h]; exact lt_irrefl 0
    constructor
    · unfold createPayload
      rw [if_neg hneg]
      rfl
    · unfold updatePayload
      rw [if_neg hneg]
      rfl
  · intro h
    constructor
    · unfold createPayload
      rw [if_pos h]
      rfl
    · unfold updatePayload
      rw [if_pos h]
      rfl

/-- Witness for claim C4: with MaxBudgetInTeam 0 the Create payload omits the
budget key; with MaxBudgetInTeam 12.5 it carries the key with value 12.5. -/
theorem c4_budget_field_presence_witness :
    ((createPayload (TeamMembershipData.mk "u2" "member" "t1" 0)).objFields).lookup
        "max_budget_in_team" = none ∧
    ((createPayload (TeamMembershipData.mk "u2" "member" "t1" (25 / 2))).objFields).lookup
        "max_budget_in_team" = some (Json.num (25 / 2)) :=
  ⟨((c4_budget_field_presence (TeamMembershipData.mk "u2" "member" "t1" 0)).1 rfl).1,
   ((c4_budget_field_presence (TeamMembershipData.mk "u2" "member" "t1" (25 / 2))).2
      (by norm_num)).1⟩

/-- Claim C5: every candidate outside the permitted RoleName set makes the
Role Validator report the error that carries the full permitted list. -/
theorem c5_invalid_role_error_enumerates_roles (s : String) (h : s ∉ ROLE_LIST) :
    ValidationError.notInRoleList ROLE_LIST ∈ (roleValidateFunc s).2 := by
  have hb : decide (s ∈ ROLE_LIST) = false := decide_eq_false h
  by_cases hp : s = PROXY_ADMIN ∨ s = PROXY_ADMIN_VIEWER <;>
    simp [roleValidateFunc, ValidateRole, hb, hp]

/-- Witness for claim C5: the string frobnicator is not a permitted role and
draws the list-enumerating error. -/
theorem c5_invalid_role_error_witness :
    ValidationError.notInRoleList ROLE_LIST ∈ (roleValidateFunc "frobnicator").2 :=
  c5_invalid_role_error_enumerates_roles "frobnicator" (by decide)

/-- Claim C6: proxy_admin and proxy_admin_viewer are recognized role names,
yet the Role Validator reports exactly the distinct team-scope exclusion error
for each of them. -/
theorem c6_reserved_proxy_admin_roles_excluded :
    (roleValidateFunc PROXY_ADMIN).2 = [ValidationError.reservedProxyAdmin] ∧
    (roleValidateFunc PROXY_ADMIN_VIEWER).2 = [ValidationError.reservedProxyAdmin] ∧
    PROXY_ADMIN ∈ ROLE_LIST ∧ PROXY_ADMIN_VIEWER ∈ ROLE_LIST := by
  decide

/-- Claim C7: the claim says a request-construction or transport failure is
reported to the caller as a terminal error. The code discards every
diag.FromErr result and then dereferences the nil response (resp.StatusCode
and the deferred resp.Body.Close), so each operation panics instead of
returning a diagnostic; this theorem evaluates the code at such failing
inputs (`none` is the panic). -/
theorem c7_transport_error_panics_instead_of_reporting :
    resourceTeamMembershipCreate sampleClient sampleState
      (HttpResult.transportError "connection refused") = none ∧
    resourceTeamMembershipRead sampleClient sampleState
      (HttpResult.transportError "connection refused") = none ∧
    resourceTeamMembershipUpdate sampleClient sampleState
      (HttpResult.transportError "connection refused") = none ∧
    resourceTeamMembershipDelete sampleClient sampleState
      (HttpResult.transportError "connection refused") = none ∧
    resourceTeamMembershipCreate sampleClient sampleState
      (HttpResult.reqError "invalid method") = none :=
  ⟨rfl, rfl, rfl, rfl, rfl⟩

/-- Claim C8: two Update invocations over declared states with identical
extracted fields post byte-identical request bodies, and each invocation
independently returns empty diagnostics under a 200 response. -/
theorem c8_update_payload_deterministic (client : LitellmClient)
    (d₁ d₂ : ResourceData) (b₁ b₂ : Json) (t : TeamMembershipData)
    (h : getTeamMembershipData d₁ = getTeamMembershipData d₂)
    (h₁ : getTeamMembershipData d₁ = some t) :
    updateRequestBody d₁ = updateRequestBody d₂ ∧
    resourceTeamMembershipUpdate client d₁ (HttpResult.resp 200 b₁) = some [] ∧
    resourceTeamMembershipUpdate client d₂ (HttpResult.resp 200 b₂) = some [] := by
  have h₂ : getTeamMembershipData d₂ = some t := by rw [← h, h₁]
  refine ⟨?_, ?_, ?_⟩
  · unfold updateRequestBody
    rw [h]
  · unfold resourceTeamMembershipUpdate
    rw [h₁]
  · unfold resourceTeamMembershipUpdate
    rw [h₂]

/-- Witness for claim C8: two invocations at the same declared state (with
different response bodies) give equal request bytes and both succeed with
empty diagnostics. -/
theorem c8_update_payload_deterministic_witness :
    updateRequestBody sampleState = updateRequestBody sampleState ∧
    resourceTeamMembershipUpdate sampleClient sampleState
      (HttpResult.resp 200 Json.null) = some [] ∧
    resourceTeamMembershipUpdate sampleClient sampleState
      (HttpResult.resp 200 specExampleBody) = some [] :=
  c8_update_payload_deterministic sampleClient sampleState sampleState Json.null
    specExampleBody (TeamMembershipData.mk "u2" "member" "t1" 0) rfl rfl

/-- Claim C9: all four user resource operations build no request, return the
declared state unchanged and produce no diagnostics. -/
theorem c9_user_operations_are_noops (client : LitellmClient) (d : ResourceData) :
    resourceUserCreate client d = (d, []) ∧
    resourceUserRead client d = (d, []) ∧
    resourceUserUpdate client d = (d, []) ∧
    resourceUserDelete client d = (d, []) :=
  ⟨rfl, rfl, rfl, rfl⟩

/-- Claim C10: max_budget_in_team is not among the declared schema keys, yet
every operation starts by asserting it to float64: the extraction only
succeeds when the accessor returns a float for the undeclared key, and when
it does not, every one of the four team membership operations panics. -/
theorem c10_unchecked_budget_assertion :
    "max_budget_in_team" ∉ SchemaTeamMembershipKeys ∧
    (∀ d : ResourceData,
      (getTeamMembershipData d).isSome = true →
        ((d.get "max_budget_in_team").asFloat).isSome = true) ∧
    (∀ (client : LitellmClient) (d : ResourceData) (r : HttpResult),
      (d.get "max_budget_in_team").asFloat = none →
        resourceTeamMembershipCreate client d r = none ∧
        resourceTeamMembershipRead client d r = none ∧
        resourceTeamMembershipUpdate client d r = none ∧
        resourceTeamMembershipDelete client d r = none) := by
  refine ⟨by decide, ?_, ?_⟩
  · intro d h
    cases hf : (d.get "max_budget_in_team").asFloat with
    | none =>
        rw [getTeamMembershipData_eq_none_of_budget_none d hf] at h
        exact absurd h (by simp)
    | some q => rfl
  · intro client d r h
    have hg := getTeamMembershipData_eq_none_of_budget_none d h
    refine ⟨?_, ?_, ?_, ?_⟩
    · unfold resourceTeamMembershipCreate
      rw [hg]
    · unfold resourceTeamMembershipRead
      rw [hg]
    · unfold resourceTeamMembershipUpdate
      rw [hg]
    · unfold resourceTeamMembershipDelete
      rw [hg]

/-- Witness for claim C10: a declared state without the budget key (as the
real schema produces) makes Create panic. -/
theorem c10_unchecked_budget_assertion_witness :
    resourceTeamMembershipCreate sampleClient stateMissingBudget
      (HttpResult.resp 200 Json.null) = none :=
  (c10_unchecked_budget_assertion.2.2 sampleClient stateMissingBudget
    (HttpResult.resp 200 Json.null) rfl).1

end LitellmProvider
